import Mathlib

/-!
Verification of the SmartQGen quiz client against its specification.

The development shallowly embeds the client-side logic of the repository:

* `getGrade` — letter-grade derivation (`src/components/ResultsDisplay.tsx`);
* `validateAndSetFile` — client-side upload validation
  (`src/components/FileUpload.tsx`);
* the answer store, navigation controller and submission policy of
  `src/components/QuizInterface.tsx`;
* the application-level phase machine and restart of `src/App.tsx`;
* the export trigger lifecycle of `QuizInterface.tsx` / `ResultsDisplay.tsx`.

Numeric values that are JavaScript numbers are modelled as rationals; the
one place where IEEE special values matter (division by a zero question
count) is modelled explicitly by `JsNum`, which tracks `NaN` and `Infinity`.
-/

namespace SmartQGen

/-! ### Results presentation: grade derivation

`getGrade` in `ResultsDisplay.tsx` is an if-chain on `percentage`,
evaluated top-down.  Only the letter is modelled; the colour strings
returned alongside it do not affect any claim. -/

def getGrade (percentage : ℚ) : String :=
  if percentage ≥ 93 then "S"
  else if percentage ≥ 85 then "A"
  else if percentage ≥ 75 then "B"
  else if percentage ≥ 60 then "C"
  else if percentage ≥ 35 then "D"
  else "F"

/-! ### Upload validation (`FileUpload.tsx`, `validateAndSetFile`)

A candidate file is its display name and its size in bytes.  The
extension is taken as `'.' + file.name.split('.').pop()?.toLowerCase()`;
`String.splitOn "."` agrees with JavaScript `split('.')` on every string
(both return the list of dot-separated segments, `[""]` for the empty
string), and `.pop()` is the last segment. -/

structure FileCand where
  name : String
  size : Nat
deriving DecidableEq

inductive ValidateResult where
  | typeError (msg : String)
  | sizeError (msg : String)
  | accepted
deriving DecidableEq

def allowedTypes : List String := [".pdf", ".docx", ".txt"]

/-- JavaScript `String.prototype.split` with a one-character separator,
on the character-list view of strings: `"a.b" ↦ ["a", "b"]`,
`"" ↦ [""]`, `"a." ↦ ["a", ""]`. -/
def splitChar (sep : Char) : List Char → List (List Char)
  | [] => [[]]
  | c :: cs =>
    match splitChar sep cs with
    | [] => [[]]
    | s :: ss => if c = sep then [] :: s :: ss else (c :: s) :: ss

/-- JavaScript `String.prototype.toLowerCase`, restricted to the ASCII
characters that occur in file extensions. -/
def jsToLower (s : List Char) : List Char := s.map Char.toLower

/-- `'.' + file.name.split('.').pop()?.toLowerCase()`.  `split` never
returns an empty array, so `pop` is the last segment. -/
def fileExt (name : String) : String :=
  "." ++ String.mk (jsToLower ((splitChar '.' name.data).getLastD []))

def validateAndSetFile (f : FileCand) : ValidateResult :=
  if ¬ (allowedTypes.contains (fileExt f.name)) then
    ValidateResult.typeError "Please upload a PDF, DOCX, or TXT file"
  else if f.size > 10 * 1024 * 1024 then
    ValidateResult.sizeError "File size must be less than 10MB"
  else
    ValidateResult.accepted

/-- The `FileUpload` component's local state: the validation error banner
and the currently selected file.  Validation is the complete handler of a
candidate file: the network upload is issued only later, by
`handleUpload`, and only for a file that became `selected`. -/
structure UploadPanel where
  error : Option String
  selected : Option FileCand
deriving DecidableEq

/-- Effect of `validateAndSetFile` on the panel state: a rejection sets
the error banner and returns early (the previous selection is kept); an
accepted file clears the error and becomes the selection. -/
def validateStep (p : UploadPanel) (f : FileCand) : UploadPanel :=
  match validateAndSetFile f with
  | ValidateResult.typeError m => { p with error := some m }
  | ValidateResult.sizeError m => { p with error := some m }
  | ValidateResult.accepted => { error := none, selected := some f }

/-! ### Session answer store (`QuizInterface.tsx`)

The `answers` record (`Record<string, string>`) is modelled as the
ordered association list of its entries, the view JavaScript itself
exposes through `Object.keys` / `Object.entries`: keys are distinct and
insertion-ordered, and `{...prev, [k]: v}` replaces the value of an
existing key in place or appends a new key at the end. -/

abbrev AnswerMap := List (String × String)

/-- `answers[q]` as an option: `none` when the key is absent. -/
def lookupAns (m : AnswerMap) (q : String) : Option String :=
  (m.find? (fun e => e.1 == q)).map Prod.snd

/-- `handleAnswer` / `setAnswers((prev) => ({ ...prev, [questionId]: answer }))`. -/
def setAnswer (m : AnswerMap) (q a : String) : AnswerMap :=
  if m.any (fun e => e.1 == q) then
    m.map (fun e => if e.1 == q then (e.1, a) else e)
  else
    m ++ [(q, a)]

/-- `Object.keys(answers)`. -/
def objectKeys (m : AnswerMap) : List String := m.map Prod.fst

/-- `answeredCount = Object.keys(answers).length`. -/
def answeredCount (m : AnswerMap) : Nat := (objectKeys m).length

/-- A JavaScript number restricted to the values arising here: an exact
rational, `NaN`, or `Infinity` (our dividends are never negative, so
`-Infinity` cannot arise). -/
inductive JsNum where
  | num (q : ℚ)
  | nan
  | inf
deriving DecidableEq

/-- JavaScript division `a / b` for non-negative `a`:
`0 / 0 = NaN`, `a / 0 = Infinity` for `a > 0`. -/
def jsDiv (a b : ℚ) : JsNum :=
  if b = 0 then (if a = 0 then JsNum.nan else JsNum.inf) else JsNum.num (a / b)

/-- The fraction of answered questions, `answeredCount / questions.length`
(the code's `progress` is this value times 100, used as a CSS width). -/
def progressFraction (m : AnswerMap) (totalQuestions : Nat) : JsNum :=
  jsDiv (answeredCount m) totalQuestions

/-- `progress = (answeredCount / questions.length) * 100`; multiplying
`NaN` or `Infinity` by 100 leaves them unchanged. -/
def progress (m : AnswerMap) (totalQuestions : Nat) : JsNum :=
  match progressFraction m totalQuestions with
  | JsNum.num q => JsNum.num (q * 100)
  | x => x

/-! ### Quiz interface: navigation and submission (`QuizInterface.tsx`) -/

/-- A generated question.  Only the identity takes part in the control
logic modelled here; the question text, the four option texts and the
optional difficulty/taxonomy tags are display-only strings that no
modelled operation inspects. -/
structure Question where
  id : String
deriving DecidableEq

/-- JavaScript falsiness of `answers[q.id]`: `undefined` (key absent) and
the empty string are falsy, every other string is truthy. -/
def jsFalsy : Option String → Bool
  | none => true
  | some s => s == ""

/-- `questions.filter((q) => !answers[q.id])`. -/
def unanswered (questions : List Question) (m : AnswerMap) : List Question :=
  questions.filter (fun q => jsFalsy (lookupAns m q.id))

/-- Local state of the `QuizInterface` component. -/
structure QuizState where
  currentQuestion : Nat
  answers : AnswerMap
  exporting : Bool
deriving DecidableEq

/-- `useState(0)`, `useState({})`, `useState(false)`. -/
def initialQuizState : QuizState :=
  { currentQuestion := 0, answers := [], exporting := false }

/-- What `handleSubmit` does besides (not) changing state: whether the
confirmation dialog was shown, citing how many unanswered questions, and
whether the scoring call `onSubmit(answers)` was issued, with which map. -/
structure SubmitOutcome where
  prompt : Option Nat
  call : Option AnswerMap
deriving DecidableEq

/-- `handleSubmit`: computes the unanswered questions; if any, asks the
user (`confirm` is the user's reply to `window.confirm`, consulted only
when the dialog is shown) and returns early on decline; otherwise calls
`onSubmit(answers)`.  The component state is returned unchanged in every
branch — the handler never mutates it. -/
def handleSubmit (questions : List Question) (s : QuizState) (confirm : Bool) :
    SubmitOutcome × QuizState :=
  let u := unanswered questions s.answers
  if 0 < u.length then
    if confirm then ({ prompt := some u.length, call := some s.answers }, s)
    else ({ prompt := some u.length, call := none }, s)
  else ({ prompt := none, call := some s.answers }, s)

/-- `handleNext`: increment unless already at the last index
(`currentQuestion < questions.length - 1`, with the JavaScript value
`-1` for an empty list behaving like the truncated `Nat` subtraction:
both make the guard false at cursor `0`). -/
def handleNext (questions : List Question) (cursor : Nat) : Nat :=
  if cursor < questions.length - 1 then cursor + 1 else cursor

/-- `handlePrevious`: decrement unless at index `0`. -/
def handlePrevious (cursor : Nat) : Nat :=
  if 0 < cursor then cursor - 1 else cursor

/-- The jump controls: `questions.map((_, idx) => <button onClick={()
=> setCurrentQuestion(idx)}>)` renders one button per index `0 ≤ idx <
questions.length`.  A jump to an in-range index sets the cursor to it
unconditionally; for an out-of-range index no control exists, so the
attempt has no effect. -/
def jumpTo (questions : List Question) (cursor idx : Nat) : Nat :=
  if idx < questions.length then idx else cursor

/-- A user navigation action. -/
inductive NavEvent where
  | next
  | previous
  | jump (idx : Nat)

def navStep (questions : List Question) (cursor : Nat) : NavEvent → Nat
  | NavEvent.next => handleNext questions cursor
  | NavEvent.previous => handlePrevious cursor
  | NavEvent.jump idx => jumpTo questions cursor idx

/-- The cursor after a sequence of navigation actions, starting from the
initial cursor `0`. -/
def navRun (questions : List Question) (evs : List NavEvent) : Nat :=
  evs.foldl (navStep questions) 0

/-! ### Application phase machine (`App.tsx`) -/

inductive Phase where
  | upload
  | generate
  | quiz
  | results
deriving DecidableEq

/-- One per-question entry of a scoring response. -/
structure ResultItem where
  question_id : String
  question_text : String
  user_answer : String
  correct_answer : String
  is_correct : Bool
  explanation : String
  optionA : String
  optionB : String
  optionC : String
  optionD : String
deriving DecidableEq

/-- The scoring response body (`QuizResult` in `services/api.ts`). -/
structure QuizResult where
  session_id : String
  total_questions : Nat
  correct_answers : Nat
  incorrect_answers : Nat
  percentage : ℚ
  results : List ResultItem
deriving DecidableEq

/-- `ApiResponse<QuizResult>` as produced by `apiService.submitQuiz`. -/
structure ApiResponse where
  success : Bool
  data : Option QuizResult
  error : Option String
deriving DecidableEq

/-- The whole observable client state.  `quiz` is the `QuizInterface`
component's local state: the component is mounted only in the `quiz`
phase, React destroys that local state on unmount, and a fresh mount
re-initialises it with `initialQuizState`; leaving the `quiz` phase is
therefore modelled by resetting the `quiz` field. -/
structure AppState where
  state : Phase
  fileId : String
  fileName : String
  questions : List Question
  sessionId : String
  results : Option QuizResult
  error : Option String
  quiz : QuizState
deriving DecidableEq

/-- `handleRestart`: unconditional full reset, from any phase. -/
def handleRestart (_s : AppState) : AppState :=
  { state := Phase.upload
    fileId := ""
    fileName := ""
    questions := []
    sessionId := ""
    results := none
    error := none
    quiz := initialQuizState }

/-- JavaScript `a || b` for an optional string `a`: `undefined` and `""`
fall through to `b`. -/
def jsOrStr (a : Option String) (b : String) : String :=
  match a with
  | some s => if s == "" then b else s
  | none => b

/-- The continuation of `handleQuizSubmit` run when the scoring response
arrives: `if (response.success && response.data)` apply the result and
move to the results phase, else surface the error message.  The state
`s` is the state *at arrival time*; the code compares nothing against
the session identity the request was dispatched for. -/
def applySubmitResponse (s : AppState) (resp : ApiResponse) : AppState :=
  if resp.success then
    match resp.data with
    | some r => { s with results := some r, state := Phase.results, error := none }
    | none => { s with error := some (jsOrStr resp.error "Failed to submit quiz") }
  else
    { s with error := some (jsOrStr resp.error "Failed to submit quiz") }

/-! ### Export trigger lifecycle
(`QuizInterface.tsx` `handleExportQuestions`, `ResultsDisplay.tsx`
`handleExport`) -/

/-- The single-flight flag of one export control (`exporting` /
`isExporting`). -/
structure ExportState where
  exporting : Bool
deriving DecidableEq

/-- How an outstanding export request finishes: a 2xx response, a non-2xx
response, or a rejected fetch / thrown exception. -/
inductive ExportOutcome where
  | ok
  | notOk
  | threw
deriving DecidableEq

/-- Pressing the export control.  The button carries
`disabled={exporting}`, so while a request is outstanding the press is
suppressed; otherwise the handler sets the flag and dispatches the
request.  The boolean reports whether a request was dispatched. -/
def exportTrigger (s : ExportState) : ExportState × Bool :=
  if s.exporting then (s, false) else ({ exporting := true }, true)

/-- Completion of `handleExportQuestions` (`QuizInterface.tsx`): the
`finally` block clears the flag in every branch; a non-2xx response
alerts `"Export failed!"`, an exception alerts
`"Error exporting questions."`, success downloads the blob silently.
Returns the state after completion and the alert message, if any. -/
def exportQuestionsComplete (o : ExportOutcome) : ExportState × Option String :=
  match o with
  | ExportOutcome.ok => ({ exporting := false }, none)
  | ExportOutcome.notOk => ({ exporting := false }, some "Export failed!")
  | ExportOutcome.threw => ({ exporting := false }, some "Error exporting questions.")

/-- Completion of `handleExport` (`ResultsDisplay.tsx`): a non-2xx
response throws, so both failure modes reach the `catch` and alert
`"Export failed. Please try again."`; the `finally` clears the flag. -/
def exportResultsComplete (o : ExportOutcome) : ExportState × Option String :=
  match o with
  | ExportOutcome.ok => ({ exporting := false }, none)
  | ExportOutcome.notOk => ({ exporting := false }, some "Export failed. Please try again.")
  | ExportOutcome.threw => ({ exporting := false }, some "Export failed. Please try again.")

/-! ### Concrete values used in counterexamples and witnesses -/

/-- A concrete scoring response body. -/
def sampleQuizResult : QuizResult :=
  { session_id := "session-1", total_questions := 1, correct_answers := 1,
    incorrect_answers := 0, percentage := 100, results := [] }

/-- A concrete in-progress quiz state, as it stands while a submit
request is outstanding. -/
def sampleActiveState : AppState :=
  { state := Phase.quiz, fileId := "file-1", fileName := "notes.pdf",
    questions := [{ id := "q1" }], sessionId := "session-1",
    results := none, error := none,
    quiz := { currentQuestion := 0, answers := [("q1", "A")], exporting := false } }

/-! ## Supporting lemmas -/

/-- When the key is already present, the in-place overwrite is what a
later lookup of that key sees. -/
theorem lookupAns_map_set (m : AnswerMap) (q a : String)
    (hany : (m.any fun e => e.1 == q) = true) :
    lookupAns (m.map fun e => if e.1 == q then (e.1, a) else e) q = some a := by
  induction m with
  | nil => simp at hany
  | cons e t ih =>
      by_cases he : (e.1 == q) = true
      · have hq : e.1 = q := by simpa using he
        simp [lookupAns, List.find?, he, hq]
      · have he2 : (e.1 == q) = false := by simpa using he
        simp only [List.any_cons, he2, Bool.false_or] at hany
        simp only [List.map_cons, he2, if_neg, Bool.not_eq_true]
        simp only [lookupAns, List.find?, he2]
        exact ih hany

/-- When the key is absent, the appended entry is what a later lookup of
that key sees. -/
theorem lookupAns_append_single (m : AnswerMap) (q a : String)
    (hany : (m.any fun e => e.1 == q) = false) :
    lookupAns (m ++ [(q, a)]) q = some a := by
  induction m with
  | nil => simp [lookupAns, List.find?]
  | cons e t ih =>
      simp only [List.any_cons, Bool.or_eq_false_iff] at hany
      simp only [List.cons_append, lookupAns, List.find?, hany.1]
      exact ih hany.2

/-- Overwriting key `q` does not change the lookup of any other key. -/
theorem lookupAns_map_set_frame (m : AnswerMap) (q a q' : String) (hne : q' ≠ q) :
    lookupAns (m.map fun e => if e.1 == q then (e.1, a) else e) q' = lookupAns m q' := by
  induction m with
  | nil => rfl
  | cons e t ih =>
      by_cases he : (e.1 == q) = true
      · have hq : e.1 = q := by simpa using he
        have hne2 : (e.1 == q') = false := by
          simp only [beq_eq_false_iff_ne, ne_eq, hq]
          exact fun h => hne h.symm
        simp only [List.map_cons, he, if_pos, lookupAns, List.find?, hne2]
        exact ih
      · have he2 : (e.1 == q) = false := by simpa using he
        by_cases hq' : (e.1 == q') = true
        · simp [lookupAns, List.find?, he2, hq']
        · have hq2 : (e.1 == q') = false := by simpa using hq'
          simp only [List.map_cons, he2, if_neg, Bool.not_eq_true, lookupAns, List.find?, hq2]
          exact ih

/-- Appending a new entry for key `q` does not change the lookup of any
other key. -/
theorem lookupAns_append_frame (m : AnswerMap) (q a q' : String) (hne : q' ≠ q) :
    lookupAns (m ++ [(q, a)]) q' = lookupAns m q' := by
  induction m with
  | nil =>
      have hqq : (q == q') = false := by
        simp only [beq_eq_false_iff_ne, ne_eq]
        exact fun h => hne h.symm
      simp [lookupAns, List.find?, hqq]
  | cons e t ih =>
      by_cases he : (e.1 == q') = true
      · simp [lookupAns, List.find?, he]
      · have he2 : (e.1 == q') = false := by simpa using he
        simp only [List.cons_append, lookupAns, List.find?, he2]
        exact ih

/-- The in-place overwrite leaves the key list unchanged. -/
theorem objectKeys_map_set (m : AnswerMap) (q a : String) :
    objectKeys (m.map fun e => if e.1 == q then (e.1, a) else e) = objectKeys m := by
  simp only [objectKeys, List.map_map]
  apply List.map_congr_left
  intro e _
  simp only [Function.comp_apply]
  split <;> rfl

/-- `setAnswer` keeps the keys distinct: at most one entry per question
identity. -/
theorem setAnswer_nodup (m : AnswerMap) (q a : String) (h : (objectKeys m).Nodup) :
    (objectKeys (setAnswer m q a)).Nodup := by
  unfold setAnswer
  split
  · rw [objectKeys_map_set]
    exact h
  · rename_i hany
    have hq : q ∉ objectKeys m := by
      intro hmem
      simp only [objectKeys, List.mem_map] at hmem
      obtain ⟨e, hem, hee⟩ := hmem
      exact hany (List.any_eq_true.mpr ⟨e, hem, by simp [hee]⟩)
    have hkeys : objectKeys (m ++ [(q, a)]) = (objectKeys m).concat q := by
      simp [objectKeys, List.concat_eq_append]
    rw [hkeys]
    exact List.Nodup.concat hq h

/-- Counting the elements of one duplicate-free list that occur in
another is symmetric: both sides count the common elements. -/
theorem length_filter_contains_comm (l1 l2 : List String) (h1 : l1.Nodup) (h2 : l2.Nodup) :
    (l1.filter (fun x => l2.contains x)).length = (l2.filter (fun x => l1.contains x)).length := by
  have key : ∀ (a b : List String), a.Nodup →
      (a.filter (fun x => b.contains x)).length = (a.toFinset ∩ b.toFinset).card := by
    intro a b ha
    rw [← List.toFinset_card_of_nodup (ha.filter _)]
    congr 1
    rw [List.toFinset_filter]
    rw [← Finset.filter_mem_eq_inter]
    apply Finset.filter_congr
    intro x _
    simp
  rw [key l1 l2 h1, key l2 l1 h2, Finset.inter_comm]

/-- With every stored answer a non-empty string, `!answers[k]` is
exactly "k is not a key of the map". -/
theorem jsFalsy_lookupAns (m : AnswerMap) (k : String) (hvals : ∀ e ∈ m, e.2 ≠ "") :
    jsFalsy (lookupAns m k) = !((objectKeys m).contains k) := by
  unfold lookupAns
  cases hf : m.find? (fun x => x.1 == k) with
  | none =>
      have hk : k ∉ objectKeys m := by
        intro hk
        simp only [objectKeys, List.mem_map] at hk
        obtain ⟨e, hem, hek⟩ := hk
        have := List.find?_eq_none.mp hf e hem
        simp [hek] at this
      have hcon : ((objectKeys m).contains k) = false := by simpa using hk
      simp only [Option.map_none', jsFalsy, hcon]
      rfl
  | some e =>
      have hem : e ∈ m := List.mem_of_find?_eq_some hf
      have hpe : (e.1 == k) = true := by simpa using List.find?_some hf
      have hv : e.2 ≠ "" := hvals e hem
      have hk : k ∈ objectKeys m := by
        simp only [objectKeys, List.mem_map]
        exact ⟨e, hem, by simpa using hpe⟩
      have hcon : ((objectKeys m).contains k) = true := by simpa using hk
      simp only [Option.map_some', jsFalsy, hcon]
      simpa using hv

/-- The unanswered count computed by `handleSubmit` equals the number of
questions minus the number of `AnswerMap` keys among the question
identities. -/
theorem unanswered_count (questions : List Question) (m : AnswerMap)
    (hids : (questions.map Question.id).Nodup)
    (hkeys : (objectKeys m).Nodup)
    (hvals : ∀ e ∈ m, e.2 ≠ "") :
    (unanswered questions m).length
      = questions.length
        - ((objectKeys m).filter (fun k => (questions.map Question.id).contains k)).length := by
  have hstep : unanswered questions m
      = questions.filter (fun q => !((objectKeys m).contains q.id)) := by
    unfold unanswered
    apply List.filter_congr
    intro q _
    exact jsFalsy_lookupAns m q.id hvals
  rw [hstep]
  have hsplit := List.length_eq_length_filter_add (l := questions)
      (fun q => ((objectKeys m).contains q.id))
  have hcount : (questions.filter (fun q => ((objectKeys m).contains q.id))).length
      = ((objectKeys m).filter (fun k => (questions.map Question.id).contains k)).length := by
    have hmap : ((questions.map Question.id).filter (fun k => ((objectKeys m).contains k))).length
        = (questions.filter (fun q => ((objectKeys m).contains q.id))).length := by
      rw [List.filter_map]
      simp [Function.comp_def]
    have hcomm := length_filter_contains_comm (questions.map Question.id) (objectKeys m) hids hkeys
    rw [hmap] at hcomm
    exact hcomm
  omega

/-- A single navigation step keeps the cursor within bounds. -/
theorem navStep_bound (questions : List Question) (c : Nat) (e : NavEvent)
    (hc : c ≤ questions.length - 1) : navStep questions c e ≤ questions.length - 1 := by
  cases e with
  | next =>
      simp only [navStep, handleNext]
      split
      · omega
      · exact hc
  | previous =>
      simp only [navStep, handlePrevious]
      split <;> omega
  | jump idx =>
      simp only [navStep, jumpTo]
      split <;> omega

/-! ## Claim theorems -/

/-- Claim C1, counterexample: the claimed stale-response guard does not
exist.  After a full restart the active session identity is `""`; a
quiz-submission response dispatched for session `"session-1"` that
arrives then is nevertheless applied: the state visibly changes, the
phase becomes `results` and the stale result is installed — not a silent
discard. -/
theorem stale_response_counterexample :
    "session-1" ≠ (handleRestart sampleActiveState).sessionId ∧
    applySubmitResponse (handleRestart sampleActiveState)
        { success := true, data := some sampleQuizResult, error := none }
      ≠ handleRestart sampleActiveState ∧
    (applySubmitResponse (handleRestart sampleActiveState)
        { success := true, data := some sampleQuizResult, error := none }).state
      = Phase.results ∧
    (applySubmitResponse (handleRestart sampleActiveState)
        { success := true, data := some sampleQuizResult, error := none }).results
      = some sampleQuizResult := by
  refine ⟨by decide, ?_, rfl, rfl⟩
  intro h
  have hres := congrArg AppState.results h
  simp [applySubmitResponse, handleRestart] at hres

/-- Claim C1, amended: the quiz-submission response is applied to the
state at arrival time unconditionally — no session-identity comparison
is made.  A successful response installs the result and moves the phase
to `results` whatever the current state, in particular after a restart;
a failed response sets the error overlay. -/
theorem submit_response_applied_unconditionally (s : AppState) (r : QuizResult)
    (e : Option String) :
    applySubmitResponse s { success := true, data := some r, error := e }
      = { s with results := some r, state := Phase.results, error := none } ∧
    (applySubmitResponse (handleRestart s)
        { success := true, data := some r, error := e }).state = Phase.results ∧
    (applySubmitResponse (handleRestart s)
        { success := true, data := some r, error := e }).results = some r ∧
    (∀ resp : ApiResponse, resp.success = false →
      applySubmitResponse s resp
        = { s with error := some (jsOrStr resp.error "Failed to submit quiz") }) := by
  refine ⟨rfl, rfl, rfl, fun resp hre => ?_⟩
  unfold applySubmitResponse
  rw [if_neg (by simp [hre])]

/-- Witness for the amended C1 theorem at a concrete failed response. -/
theorem submit_response_applied_unconditionally_witness :
    applySubmitResponse sampleActiveState
        { success := false, data := none, error := some "boom" }
      = { sampleActiveState with error := some "boom" } := by
  have h := (submit_response_applied_unconditionally sampleActiveState sampleQuizResult
      none).2.2.2 { success := false, data := none, error := some "boom" } rfl
  have hmsg : jsOrStr (some "boom") "Failed to submit quiz" = "boom" := by decide
  rw [hmsg] at h
  exact h

/-- Claim C2: the grade is a pure function of the percentage, matching
the banded table with inclusive lower boundaries evaluated top-down:
`p ≥ 93 ↦ S`, `85 ≤ p < 93 ↦ A`, `75 ≤ p < 85 ↦ B`, `60 ≤ p < 75 ↦ C`,
`35 ≤ p < 60 ↦ D`, `p < 35 ↦ F`. -/
theorem grade_bands (p : ℚ) :
    (93 ≤ p → getGrade p = "S") ∧
    (85 ≤ p ∧ p < 93 → getGrade p = "A") ∧
    (75 ≤ p ∧ p < 85 → getGrade p = "B") ∧
    (60 ≤ p ∧ p < 75 → getGrade p = "C") ∧
    (35 ≤ p ∧ p < 60 → getGrade p = "D") ∧
    (p < 35 → getGrade p = "F") := by
  unfold getGrade
  refine ⟨fun h => ?_, fun h => ?_, fun h => ?_, fun h => ?_, fun h => ?_, fun h => ?_⟩ <;>
    split_ifs <;>
    first
      | rfl
      | (exfalso; linarith [h.1, h.2])
      | (exfalso; linarith [h])

/-- Witness for C2 at the boundary values named by the claim. -/
theorem grade_bands_witness :
    getGrade 93 = "S" ∧ getGrade (92999/1000) = "A" ∧ getGrade 85 = "A" ∧
    getGrade 60 = "C" ∧ getGrade (59999/1000) = "D" ∧ getGrade 35 = "D" ∧
    getGrade (34999/1000) = "F" :=
  ⟨(grade_bands 93).1 (by norm_num),
   (grade_bands (92999/1000)).2.1 (by norm_num),
   (grade_bands 85).2.1 (by norm_num),
   (grade_bands 60).2.2.2.1 (by norm_num),
   (grade_bands (59999/1000)).2.2.2.2.1 (by norm_num),
   (grade_bands 35).2.2.2.2.1 (by norm_num),
   (grade_bands (34999/1000)).2.2.2.2.2 (by norm_num)⟩

/-- Claim C3: the unanswered count is `|questions| - |AnswerMap keys
among question ids|`; with zero unanswered questions submission issues
the scoring call with no confirmation prompt; with at least one, the
prompt cites exactly that count, and declining issues no call and leaves
the component state unchanged. -/
theorem submission_policy (questions : List Question) (s : QuizState) (confirm : Bool)
    (hids : (questions.map Question.id).Nodup)
    (hkeys : (objectKeys s.answers).Nodup)
    (hvals : ∀ e ∈ s.answers, e.2 ≠ "") :
    (unanswered questions s.answers).length
      = questions.length
        - ((objectKeys s.answers).filter
            (fun k => (questions.map Question.id).contains k)).length ∧
    ((unanswered questions s.answers).length = 0 →
      handleSubmit questions s confirm
        = ({ prompt := none, call := some s.answers }, s)) ∧
    (0 < (unanswered questions s.answers).length →
      (handleSubmit questions s confirm).1.prompt
        = some (unanswered questions s.answers).length) ∧
    (0 < (unanswered questions s.answers).length → confirm = false →
      handleSubmit questions s confirm
        = ({ prompt := some (unanswered questions s.answers).length, call := none }, s)) := by
  refine ⟨unanswered_count questions s.answers hids hkeys hvals,
    fun h0 => ?_, fun hpos => ?_, fun hpos hc => ?_⟩
  · unfold handleSubmit
    rw [if_neg (by omega)]
  · unfold handleSubmit
    rw [if_pos hpos]
    cases confirm <;> simp
  · subst hc
    unfold handleSubmit
    rw [if_pos hpos]
    simp

/-- Witness for C3: five questions, three answered, submit declined —
the prompt cites exactly two unanswered, no call is issued, the state is
unchanged. -/
theorem submission_policy_witness :
    handleSubmit [⟨"q1"⟩, ⟨"q2"⟩, ⟨"q3"⟩, ⟨"q4"⟩, ⟨"q5"⟩]
        { currentQuestion := 0, answers := [("q1", "A"), ("q2", "B"), ("q3", "C")],
          exporting := false }
        false
      = ({ prompt := some 2, call := none },
         { currentQuestion := 0, answers := [("q1", "A"), ("q2", "B"), ("q3", "C")],
           exporting := false }) := by
  have h := submission_policy [⟨"q1"⟩, ⟨"q2"⟩, ⟨"q3"⟩, ⟨"q4"⟩, ⟨"q5"⟩]
      { currentQuestion := 0, answers := [("q1", "A"), ("q2", "B"), ("q3", "C")],
        exporting := false }
      false (by decide) (by decide) (by decide)
  have h2 := h.2.2.2 (by decide) rfl
  have hlen : (unanswered [⟨"q1"⟩, ⟨"q2"⟩, ⟨"q3"⟩, ⟨"q4"⟩, ⟨"q5"⟩]
      [("q1", "A"), ("q2", "B"), ("q3", "C")]).length = 2 := by decide
  rw [hlen] at h2
  exact h2

/-- Claim C4: `next` at the last index is a no-op and otherwise
increments by one; `previous` at index 0 is a no-op and otherwise
decrements by one; a jump to an out-of-range index is a silent no-op and
an in-range jump sets the cursor; and over any sequence of navigation
events from cursor 0 on a non-empty list the cursor stays within
`[0, length-1]`. -/
theorem nav_cursor_invariant (questions : List Question) (h : questions ≠ []) :
    (∀ c, c < questions.length - 1 → handleNext questions c = c + 1) ∧
    handleNext questions (questions.length - 1) = questions.length - 1 ∧
    (∀ c, 0 < c → handlePrevious c = c - 1) ∧
    handlePrevious 0 = 0 ∧
    (∀ c idx, idx < questions.length → jumpTo questions c idx = idx) ∧
    (∀ c idx, questions.length ≤ idx → jumpTo questions c idx = c) ∧
    (∀ evs : List NavEvent, navRun questions evs ≤ questions.length - 1) := by
  have hlen : 1 ≤ questions.length := by
    cases questions with
    | nil => simp at h
    | cons a t => simp
  refine ⟨fun c hc => ?_, ?_, fun c hc => ?_, ?_, fun c idx hidx => ?_,
    fun c idx hidx => ?_, ?_⟩
  · simp only [handleNext]
    rw [if_pos hc]
  · simp only [handleNext]
    rw [if_neg (by omega)]
  · simp only [handlePrevious]
    rw [if_pos hc]
  · rfl
  · simp only [jumpTo]
    rw [if_pos hidx]
  · simp only [jumpTo]
    rw [if_neg (by omega)]
  · intro evs
    have aux : ∀ (l : List NavEvent) (c : Nat), c ≤ questions.length - 1 →
        l.foldl (navStep questions) c ≤ questions.length - 1 := by
      intro l
      induction l with
      | nil =>
          intro c hc
          simpa using hc
      | cons e t ih =>
          intro c hc
          simpa using ih (navStep questions c e) (navStep_bound questions c e hc)
    exact aux evs 0 (by omega)

/-- Witness for C4 on a two-question list. -/
theorem nav_cursor_invariant_witness :
    handleNext [{ id := "q1" }, { id := "q2" }] 1 = 1 ∧
    handlePrevious 0 = 0 ∧
    jumpTo [{ id := "q1" }, { id := "q2" }] 1 5 = 1 ∧
    navRun [{ id := "q1" }, { id := "q2" }]
      [NavEvent.next, NavEvent.next, NavEvent.jump 1, NavEvent.previous] ≤ 1 := by
  have h := nav_cursor_invariant [{ id := "q1" }, { id := "q2" }] (by decide)
  exact ⟨h.2.1, h.2.2.2.1, h.2.2.2.2.2.1 1 5 (by decide),
    h.2.2.2.2.2.2 [NavEvent.next, NavEvent.next, NavEvent.jump 1, NavEvent.previous]⟩

/-- Claim C5: a file whose extension is outside the allow-list is
rejected with the type-error message, an allowed file over 10 MB is
rejected with the size-error message — in both cases only the error
banner changes, no upload is dispatched and no phase transition occurs —
and an allowed file within the limit is accepted; concretely, a 2 MB
`.pdf` is accepted, a 12 MB `.pdf` gets the size error and a `.exe`
gets the type error. -/
theorem upload_validation (f : FileCand) (p : UploadPanel) :
    (¬ allowedTypes.contains (fileExt f.name) →
      validateAndSetFile f
        = ValidateResult.typeError "Please upload a PDF, DOCX, or TXT file" ∧
      validateStep p f
        = { p with error := some "Please upload a PDF, DOCX, or TXT file" }) ∧
    (allowedTypes.contains (fileExt f.name) → 10 * 1024 * 1024 < f.size →
      validateAndSetFile f = ValidateResult.sizeError "File size must be less than 10MB" ∧
      validateStep p f = { p with error := some "File size must be less than 10MB" }) ∧
    (allowedTypes.contains (fileExt f.name) → f.size ≤ 10 * 1024 * 1024 →
      validateAndSetFile f = ValidateResult.accepted ∧
      validateStep p f = { error := none, selected := some f }) ∧
    validateAndSetFile { name := "notes.pdf", size := 2 * 1024 * 1024 }
      = ValidateResult.accepted ∧
    validateAndSetFile { name := "notes.pdf", size := 12 * 1024 * 1024 }
      = ValidateResult.sizeError "File size must be less than 10MB" ∧
    validateAndSetFile { name := "setup.exe", size := 2 * 1024 * 1024 }
      = ValidateResult.typeError "Please upload a PDF, DOCX, or TXT file" := by
  refine ⟨fun ht => ?_, fun ht hs => ?_, fun ht hs => ?_, by decide, by decide, by decide⟩
  · have h1 : validateAndSetFile f
        = ValidateResult.typeError "Please upload a PDF, DOCX, or TXT file" := by
      unfold validateAndSetFile
      rw [if_pos ht]
    exact ⟨h1, by unfold validateStep; rw [h1]⟩
  · have h1 : validateAndSetFile f
        = ValidateResult.sizeError "File size must be less than 10MB" := by
      unfold validateAndSetFile
      rw [if_neg (not_not_intro ht), if_pos hs]
    exact ⟨h1, by unfold validateStep; rw [h1]⟩
  · have h1 : validateAndSetFile f = ValidateResult.accepted := by
      unfold validateAndSetFile
      rw [if_neg (not_not_intro ht), if_neg (by omega)]
    exact ⟨h1, by unfold validateStep; rw [h1]⟩

/-- Witness for C5: a 2 MB `.pdf` is accepted and selected; a 12 MB
`.pdf` only sets the size-error banner. -/
theorem upload_validation_witness :
    (validateAndSetFile { name := "lecture.pdf", size := 2 * 1024 * 1024 }
        = ValidateResult.accepted ∧
      validateStep { error := some "old", selected := none }
          { name := "lecture.pdf", size := 2 * 1024 * 1024 }
        = { error := none,
            selected := some { name := "lecture.pdf", size := 2 * 1024 * 1024 } }) ∧
    validateStep { error := none, selected := none }
        { name := "lecture.pdf", size := 12 * 1024 * 1024 }
      = { error := some "File size must be less than 10MB", selected := none } :=
  ⟨(upload_validation { name := "lecture.pdf", size := 2 * 1024 * 1024 }
      { error := some "old", selected := none }).2.2.1 (by decide) (by decide),
   ((upload_validation { name := "lecture.pdf", size := 12 * 1024 * 1024 }
      { error := none, selected := none }).2.1 (by decide) (by decide)).2⟩

/-- Claim C6: restart from any state yields the fully reset state:
empty `AnswerMap`, cursor 0, empty document and session identities, no
result, no error, phase `Upload`. -/
theorem restart_postcondition (s : AppState) :
    (handleRestart s).quiz.answers = [] ∧
    (handleRestart s).quiz.currentQuestion = 0 ∧
    (handleRestart s).fileId = "" ∧
    (handleRestart s).fileName = "" ∧
    (handleRestart s).sessionId = "" ∧
    (handleRestart s).questions = [] ∧
    (handleRestart s).results = none ∧
    (handleRestart s).error = none ∧
    (handleRestart s).state = Phase.upload :=
  ⟨rfl, rfl, rfl, rfl, rfl, rfl, rfl, rfl, rfl⟩

/-- Claim C7, counterexample: with zero questions the computed progress
fraction is JavaScript `0 / 0 = NaN`, not the value `0` the claim
specifies. -/
theorem progress_zero_total_counterexample :
    progressFraction [] 0 = JsNum.nan ∧ progressFraction [] 0 ≠ JsNum.num 0 :=
  ⟨rfl, fun h => JsNum.noConfusion h⟩

/-- Claim C7, amended: `answeredCount` is the number of distinct keys of
the `AnswerMap`; for a positive question count the progress fraction is
`answeredCount / totalQuestions`; for a zero question count the code
computes `0 / 0 = NaN` (or `Infinity` were the count positive), not
`0`. -/
theorem progress_queries (m : AnswerMap) (total : Nat) :
    ((objectKeys m).Nodup → answeredCount m = (objectKeys m).dedup.length) ∧
    (total ≠ 0 →
      progressFraction m total = JsNum.num ((answeredCount m : ℚ) / (total : ℚ))) ∧
    (total = 0 → answeredCount m = 0 → progressFraction m total = JsNum.nan) ∧
    (total = 0 → 0 < answeredCount m → progressFraction m total = JsNum.inf) := by
  refine ⟨fun hd => ?_, fun ht => ?_, fun ht h0 => ?_, fun ht h0 => ?_⟩
  · unfold answeredCount
    rw [List.Nodup.dedup hd]
  · unfold progressFraction jsDiv
    rw [if_neg (by exact_mod_cast ht)]
  · subst ht
    unfold progressFraction jsDiv
    rw [if_pos (by norm_num), if_pos (by exact_mod_cast h0)]
  · subst ht
    unfold progressFraction jsDiv
    rw [if_pos (by norm_num), if_neg (by exact_mod_cast Nat.pos_iff_ne_zero.mp h0)]

/-- Witness for the amended C7 theorem: one of two questions answered
gives the fraction `1/2`; an empty list of questions gives `NaN`. -/
theorem progress_queries_witness :
    progressFraction [("q1", "A")] 2 = JsNum.num ((1 : ℚ) / 2) ∧
    progressFraction [] 0 = JsNum.nan := by
  constructor
  · have h := (progress_queries [("q1", "A")] 2).2.1 (by decide)
    simpa [answeredCount, objectKeys] using h
  · exact (progress_queries [] 0).2.2.1 rfl rfl

/-- Claim C8: `setAnswer` maps the selected question to exactly the new
option, leaves every other question's entry unchanged, and keeps at most
one entry per question identity. -/
theorem setAnswer_overwrite_and_frame (m : AnswerMap) (q a q' : String) :
    lookupAns (setAnswer m q a) q = some a ∧
    (q' ≠ q → lookupAns (setAnswer m q a) q' = lookupAns m q') ∧
    ((objectKeys m).Nodup → (objectKeys (setAnswer m q a)).Nodup) := by
  refine ⟨?_, fun hne => ?_, setAnswer_nodup m q a⟩
  · unfold setAnswer
    split
    · rename_i hany
      exact lookupAns_map_set m q a hany
    · rename_i hany
      exact lookupAns_append_single m q a (by rwa [Bool.not_eq_true] at hany)
  · unfold setAnswer
    split
    · exact lookupAns_map_set_frame m q a q' hne
    · exact lookupAns_append_frame m q a q' hne

/-- Witness for C8: overwriting and inserting on small concrete maps. -/
theorem setAnswer_overwrite_and_frame_witness :
    lookupAns (setAnswer [("q1", "A")] "q1" "B") "q1" = some "B" ∧
    lookupAns (setAnswer [("q1", "A"), ("q2", "C")] "q1" "B") "q2" = some "C" ∧
    (objectKeys (setAnswer [("q1", "A"), ("q2", "C")] "q3" "B")).Nodup :=
  ⟨(setAnswer_overwrite_and_frame [("q1", "A")] "q1" "B" "x").1,
   (setAnswer_overwrite_and_frame [("q1", "A"), ("q2", "C")] "q1" "B" "q2").2.1 (by decide),
   (setAnswer_overwrite_and_frame [("q1", "A"), ("q2", "C")] "q3" "B" "x").2.2 (by decide)⟩

/-- Claim C9: while an export request is outstanding its control is
suppressed; completion — success or failure — always clears the flag,
re-enabling the control; both failure modes produce a user-visible
notice, in both export handlers. -/
theorem export_lifecycle (s : ExportState) (o : ExportOutcome) :
    (s.exporting = true → exportTrigger s = (s, false)) ∧
    (s.exporting = false → exportTrigger s = ({ exporting := true }, true)) ∧
    (exportQuestionsComplete o).1.exporting = false ∧
    (exportResultsComplete o).1.exporting = false ∧
    (o ≠ ExportOutcome.ok →
      (exportQuestionsComplete o).2.isSome = true ∧
      (exportResultsComplete o).2.isSome = true) := by
  refine ⟨fun h => ?_, fun h => ?_, ?_, ?_, fun ho => ?_⟩
  · unfold exportTrigger
    rw [if_pos h]
  · unfold exportTrigger
    rw [if_neg (by simp [h])]
  · cases o <;> rfl
  · cases o <;> rfl
  · cases o with
    | ok => exact absurd rfl ho
    | notOk => exact ⟨rfl, rfl⟩
    | threw => exact ⟨rfl, rfl⟩

/-- Witness for C9: a pressed control is suppressed while busy,
dispatches when idle, and a failed completion leaves a notice. -/
theorem export_lifecycle_witness :
    exportTrigger { exporting := true } = ({ exporting := true }, false) ∧
    exportTrigger { exporting := false } = ({ exporting := true }, true) ∧
    (exportQuestionsComplete ExportOutcome.notOk).2.isSome = true ∧
    (exportResultsComplete ExportOutcome.threw).2.isSome = true :=
  ⟨(export_lifecycle { exporting := true } ExportOutcome.ok).1 rfl,
   (export_lifecycle { exporting := false } ExportOutcome.ok).2.1 rfl,
   ((export_lifecycle { exporting := false } ExportOutcome.notOk).2.2.2.2 (by decide)).1,
   ((export_lifecycle { exporting := false } ExportOutcome.threw).2.2.2.2 (by decide)).2⟩

/-- Claim C10: the extension check lowercases the text after the last
dot before comparing with the allow-list, so uppercase and mixed-case
variants of allowed extensions pass the type check; and the type check
runs before the size check, so a file failing both surfaces the type
error. -/
theorem upload_ext_lowercase_type_before_size (f : FileCand) :
    (allowedTypes.contains (fileExt f.name) = true →
      ∀ msg, validateAndSetFile f ≠ ValidateResult.typeError msg) ∧
    (allowedTypes.contains (fileExt f.name) = false →
      validateAndSetFile f
        = ValidateResult.typeError "Please upload a PDF, DOCX, or TXT file") ∧
    fileExt "notes.PDF" = ".pdf" ∧
    fileExt "paper.Docx" = ".docx" ∧
    fileExt "readme.TXT" = ".txt" ∧
    validateAndSetFile { name := "notes.PDF", size := 2 * 1024 * 1024 }
      = ValidateResult.accepted ∧
    validateAndSetFile { name := "setup.exe", size := 12 * 1024 * 1024 }
      = ValidateResult.typeError "Please upload a PDF, DOCX, or TXT file" := by
  refine ⟨fun ht msg => ?_, fun ht => ?_, by decide, by decide, by decide, by decide,
    by decide⟩
  · unfold validateAndSetFile
    rw [if_neg (not_not_intro ht)]
    split <;> simp
  · unfold validateAndSetFile
    rw [if_pos (fun hc => by rw [ht] at hc; exact Bool.false_ne_true hc)]

/-- Witness for C10: a 12 MB `.Docx` passes the type check (it fails
only on size); a 12 MB `.exe` fails both and surfaces the type error. -/
theorem upload_ext_lowercase_witness :
    validateAndSetFile { name := "report.Docx", size := 12 * 1024 * 1024 }
        ≠ ValidateResult.typeError "Please upload a PDF, DOCX, or TXT file" ∧
    validateAndSetFile { name := "setup.exe", size := 12 * 1024 * 1024 }
      = ValidateResult.typeError "Please upload a PDF, DOCX, or TXT file" :=
  ⟨(upload_ext_lowercase_type_before_size
        { name := "report.Docx", size := 12 * 1024 * 1024 }).1
      (by decide) "Please upload a PDF, DOCX, or TXT file",
   (upload_ext_lowercase_type_before_size
        { name := "setup.exe", size := 12 * 1024 * 1024 }).2.1 (by decide)⟩

end SmartQGen
